import Mathlib

/-!
# Verification of the protocol data model and wire codec of
# bruno-medeiros/gluon_language-server (src/language_server.rs)

The source file defines the entity catalog of an editor-tooling protocol
together with its serde-based wire codec.  This development gives a shallow
embedding of that codec: the wire encoding (an untyped JSON-like tree), the
decode-error taxonomy, the entity structures with their field names, and the
encode/decode functions generated by the serde derives and the hand-written
`Serialize`/`Deserialize` impls of the source.  Encoders emit object fields
in struct-declaration order, applying the per-field `#[serde(rename)]` and
`#[serde(skip_serializing_if)]` attributes exactly where the source declares
them.  Decoders follow serde's `visit_map` semantics: fields are found by
their wire key, unknown keys are ignored, a missing required field fails,
and a missing `Option` field defaults to `none`.
-/

namespace LS

/-- Untyped wire value (JSON-compatible tree).  Objects keep their key/value
pairs as an ordered association list, matching the order in which serde
emits struct fields.  Numbers are integers: this catalog only ever reads and
writes integral numbers (`u8`/`u64`). -/
inductive Json where
  | null : Json
  | bool : Bool → Json
  | num : Int → Json
  | str : String → Json
  | arr : List Json → Json
  | obj : List (String × Json) → Json

/-- Decode-time errors, mirroring the source's serde error usage: a missing
required struct field, a type mismatch against the expected primitive shape,
and `Error::invalid_value` with the hand-written message for an integer
outside a closed enumeration's table. -/
inductive DecodeError where
  | missingField : String → DecodeError
  | invalidType : String → DecodeError
  | invalidValue : String → DecodeError
deriving DecidableEq

/-- First occurrence of a wire key in an object's fields (serde assigns a
struct field from the entry whose key matches; entries with other keys are
skipped). -/
def lookupField : List (String × Json) → String → Option Json
  | [], _ => none
  | (k, v) :: rest, key => if k = key then some v else lookupField rest key

/-- u8::deserialize - a bare number in 0..=255. -/
def decodeU8 : Json → Except DecodeError Int
  | .num n => if 0 ≤ n ∧ n ≤ 255 then .ok n else .error (.invalidType "u8")
  | _ => .error (.invalidType "u8")

/-- u64::deserialize - a bare non-negative number below 2^64. -/
def decodeU64 : Json → Except DecodeError Nat
  | .num n => if 0 ≤ n ∧ n < 2 ^ 64 then .ok n.toNat else .error (.invalidType "u64")
  | _ => .error (.invalidType "u64")

/-- String::deserialize - a bare wire string. -/
def decodeString : Json → Except DecodeError String
  | .str s => .ok s
  | _ => .error (.invalidType "string")

/-- bool::deserialize - a bare wire boolean. -/
def decodeBool : Json → Except DecodeError Bool
  | .bool b => .ok b
  | _ => .error (.invalidType "bool")

/-- Deserialize for the unit type: only `null` is accepted. -/
def decodeUnit : Json → Except DecodeError Unit
  | .null => .ok ()
  | _ => .error (.invalidType "unit")

/-- Required struct field: missing fails with `missingField`, present is
decoded with the field type's deserializer. -/
def decodeReqField (fs : List (String × Json)) (key : String)
    (dec : Json → Except DecodeError α) : Except DecodeError α :=
  match lookupField fs key with
  | none => .error (.missingField key)
  | some v => dec v

/-- Option struct field, serde semantics: a missing field defaults to
`none`, a `null` value is `visit_none`, anything else goes through the inner
deserializer. -/
def decodeOptField (fs : List (String × Json)) (key : String)
    (dec : Json → Except DecodeError α) : Except DecodeError (Option α) :=
  match lookupField fs key with
  | none => .ok none
  | some .null => .ok none
  | some v =>
    match dec v with
    | .error e => .error e
    | .ok x => .ok (some x)

/-- Vec::deserialize over the elements of a wire array, element order
preserved, first element error propagated. -/
def decodeListAux (dec : Json → Except DecodeError α) :
    List Json → Except DecodeError (List α)
  | [] => .ok []
  | x :: rest =>
    match dec x with
    | .error e => .error e
    | .ok v =>
      match decodeListAux dec rest with
      | .error e => .error e
      | .ok vs => .ok (v :: vs)

/-- Vec::deserialize - requires a wire array. -/
def decodeList (dec : Json → Except DecodeError α) :
    Json → Except DecodeError (List α)
  | .arr xs => decodeListAux dec xs
  | _ => .error (.invalidType "sequence")

/-- Field carrying `#[serde(skip_serializing_if="Option::is_none")]`: the
key is omitted when the value is absent. -/
def optField (key : String) (f : α → Json) : Option α → List (String × Json)
  | none => []
  | some x => [(key, f x)]

/-- Option field without a skip attribute: serde emits the key with `null`
when the value is absent. -/
def serializeOption (f : α → Json) : Option α → Json
  | none => .null
  | some x => f x

/-- Vec field carrying `#[serde(skip_serializing_if="Vec::is_empty")]`: the
key is omitted when the sequence is empty. -/
def vecFieldSkipEmpty (key : String) (f : α → Json) (xs : List α) :
    List (String × Json) :=
  if xs.isEmpty then [] else [(key, .arr (xs.map f))]

/-- String field carrying `#[serde(skip_serializing_if="String::is_empty")]`:
the key is omitted when the string is empty. -/
def strFieldSkipEmpty (key : String) (s : String) : List (String × Json) :=
  if s.isEmpty then [] else [(key, .str s)]

/-! ## Closed enumerations and their codecs -/

/-- The file event type (`FileChangeType`), discriminants from the source:
Created = 1, Changed = 2, Deleted = 3. -/
inductive FileChangeType where
  | Created
  | Changed
  | Deleted
deriving DecidableEq

/-- The `as u8` value of a `FileChangeType` variant (the declared
discriminant). -/
def FileChangeType.toWire : FileChangeType → Int
  | .Created => 1
  | .Changed => 2
  | .Deleted => 3

/-- Hand-written `Deserialize` impl for `FileChangeType`: decode a `u8`,
accept exactly 1, 2, 3, otherwise fail with the source's
`Error::invalid_value` message. -/
def FileChangeType.deserialize (j : Json) : Except DecodeError FileChangeType :=
  match decodeU8 j with
  | .error e => .error e
  | .ok n =>
    if n = 1 then .ok .Created
    else if n = 2 then .ok .Changed
    else if n = 3 then .ok .Deleted
    else .error (.invalidValue
      "Expected a value of 1, 2 or 3 to deserialze to FileChangeType")

/-- Modelled from the spec: the source declares no `Serialize` impl for
`FileChangeType` (only `Deserialize`).  Section 6 of the spec assigns
Created=1, Changed=2, Deleted=3 and section 4.3 says encode emits the
variant's integer as a bare number, exactly as every hand-written enum
`Serialize` impl in the source does via `serialize_u8(*self as u8)`; the
modelled encoder therefore emits the source-declared discriminant. -/
def FileChangeType.serialize (t : FileChangeType) : Json := .num t.toWire

/-- `TextDocumentSyncKind`, discriminants from the source: None = 0,
Full = 1, Incremental = 2. -/
inductive TextDocumentSyncKind where
  | None
  | Full
  | Incremental
deriving DecidableEq

/-- The `as u8` value of a `TextDocumentSyncKind` variant. -/
def TextDocumentSyncKind.toWire : TextDocumentSyncKind → Int
  | .None => 0
  | .Full => 1
  | .Incremental => 2

/-- Hand-written `Serialize` impl: `serializer.serialize_u8(*self as u8)`. -/
def TextDocumentSyncKind.serialize (k : TextDocumentSyncKind) : Json :=
  .num k.toWire

/-- `CompletionItemKind`, discriminants from the source: Text = 1 through
Reference = 18, contiguous. -/
inductive CompletionItemKind where
  | Text
  | Method
  | Function
  | Constructor
  | Field
  | Variable
  | Class
  | Interface
  | Module
  | Property
  | Unit
  | Value
  | Enum
  | Keyword
  | Snippet
  | Color
  | File
  | Reference
deriving DecidableEq

/-- The `as u8` value of a `CompletionItemKind` variant. -/
def CompletionItemKind.toWire : CompletionItemKind → Int
  | .Text => 1
  | .Method => 2
  | .Function => 3
  | .Constructor => 4
  | .Field => 5
  | .Variable => 6
  | .Class => 7
  | .Interface => 8
  | .Module => 9
  | .Property => 10
  | .Unit => 11
  | .Value => 12
  | .Enum => 13
  | .Keyword => 14
  | .Snippet => 15
  | .Color => 16
  | .File => 17
  | .Reference => 18

/-- Hand-written `Serialize` impl: `serializer.serialize_u8(*self as u8)`. -/
def CompletionItemKind.serialize (k : CompletionItemKind) : Json :=
  .num k.toWire

/-- `DocumentHighlightKind`, discriminants from the source: Text = 1,
Read = 2, Write = 3. -/
inductive DocumentHighlightKind where
  | Text
  | Read
  | Write
deriving DecidableEq

/-- The `as u8` value of a `DocumentHighlightKind` variant. -/
def DocumentHighlightKind.toWire : DocumentHighlightKind → Int
  | .Text => 1
  | .Read => 2
  | .Write => 3

/-- Hand-written `Serialize` impl: `serializer.serialize_u8(*self as u8)`. -/
def DocumentHighlightKind.serialize (k : DocumentHighlightKind) : Json :=
  .num k.toWire

/-- `SymbolKind`, discriminants from the source: File = 1 through
Array = 18, contiguous. -/
inductive SymbolKind where
  | File
  | Module
  | Namespace
  | Package
  | Class
  | Method
  | Property
  | Field
  | Constructor
  | Enum
  | Interface
  | Function
  | Variable
  | Constant
  | String
  | Number
  | Boolean
  | Array
deriving DecidableEq

/-- The `as u8` value of a `SymbolKind` variant. -/
def SymbolKind.toWire : SymbolKind → Int
  | .File => 1
  | .Module => 2
  | .Namespace => 3
  | .Package => 4
  | .Class => 5
  | .Method => 6
  | .Property => 7
  | .Field => 8
  | .Constructor => 9
  | .Enum => 10
  | .Interface => 11
  | .Function => 12
  | .Variable => 13
  | .Constant => 14
  | .String => 15
  | .Number => 16
  | .Boolean => 17
  | .Array => 18

/-- Hand-written `Serialize` impl: `serializer.serialize_u8(*self as u8)`. -/
def SymbolKind.serialize (k : SymbolKind) : Json := .num k.toWire

/-- `MessageType`, discriminants from the source: Error = 1, Warning = 2,
Info = 3, Log = 4. -/
inductive MessageType where
  | Error
  | Warning
  | Info
  | Log
deriving DecidableEq

/-- The `as u8` value of a `MessageType` variant. -/
def MessageType.toWire : MessageType → Int
  | .Error => 1
  | .Warning => 2
  | .Info => 3
  | .Log => 4

/-- Hand-written `Serialize` impl: `serializer.serialize_u8(*self as u8)`. -/
def MessageType.serialize (t : MessageType) : Json := .num t.toWire

/-- `DiagnosticSeverity`, discriminants from the source: Error = 1,
Warning = 2, Information = 3, Hint = 4. -/
inductive DiagnosticSeverity where
  | Error
  | Warning
  | Information
  | Hint
deriving DecidableEq

/-- The `as u8` value of a `DiagnosticSeverity` variant. -/
def DiagnosticSeverity.toWire : DiagnosticSeverity → Int
  | .Error => 1
  | .Warning => 2
  | .Information => 3
  | .Hint => 4

/-- Hand-written `Deserialize` impl for `DiagnosticSeverity`: decode a `u8`,
accept exactly 1, 2, 3, 4, otherwise fail with the source's
`Error::invalid_value` message. -/
def DiagnosticSeverity.deserialize (j : Json) :
    Except DecodeError DiagnosticSeverity :=
  match decodeU8 j with
  | .error e => .error e
  | .ok n =>
    if n = 1 then .ok .Error
    else if n = 2 then .ok .Warning
    else if n = 3 then .ok .Information
    else if n = 4 then .ok .Hint
    else .error (.invalidValue
      "Expected a value of 1, 2, 3 or 4 to deserialze to DiagnosticSeverity")

/-- Hand-written `Serialize` impl: `serializer.serialize_u8(*self as u8)`. -/
def DiagnosticSeverity.serialize (s : DiagnosticSeverity) : Json :=
  .num s.toWire

/-! ## Primitive addressing entities -/

/-- `Position { line: u64, character: u64 }`, derives Deserialize and
Serialize; neither field is renamed. -/
structure Position where
  line : Nat
  character : Nat
deriving DecidableEq

/-- The u64 fields fit the Rust representation. -/
def Position.wf (p : Position) : Prop :=
  p.line < 2 ^ 64 ∧ p.character < 2 ^ 64

instance (p : Position) : Decidable p.wf := by unfold Position.wf; infer_instance

/-- Derived `Serialize` for `Position`: both fields, declaration order. -/
def Position.serialize (p : Position) : Json :=
  .obj [("line", .num p.line), ("character", .num p.character)]

/-- Derived `Deserialize` for `Position`: both fields required, unknown
keys ignored. -/
def Position.deserialize : Json → Except DecodeError Position
  | .obj fs => do
    let l ← decodeReqField fs "line" decodeU64
    let c ← decodeReqField fs "character" decodeU64
    .ok ⟨l, c⟩
  | _ => .error (.invalidType "map")

/-- `Range { start: Position, end: Position }`, derives Deserialize and
Serialize.  The Rust field `end` is spelled `end_` here (Lean keyword); its
wire key is still `end`. -/
structure Range where
  start : Position
  end_ : Position
deriving DecidableEq

/-- Both positions fit the Rust representation. -/
def Range.wf (r : Range) : Prop := r.start.wf ∧ r.end_.wf

instance (r : Range) : Decidable r.wf := by unfold Range.wf; infer_instance

/-- Derived `Serialize` for `Range`. -/
def Range.serialize (r : Range) : Json :=
  .obj [("start", r.start.serialize), ("end", r.end_.serialize)]

/-- Derived `Deserialize` for `Range`. -/
def Range.deserialize : Json → Except DecodeError Range
  | .obj fs => do
    let s ← decodeReqField fs "start" Position.deserialize
    let e ← decodeReqField fs "end" Position.deserialize
    .ok ⟨s, e⟩
  | _ => .error (.invalidType "map")

/-- `TextDocumentIdentifier { uri: String }`, derives Deserialize. -/
structure TextDocumentIdentifier where
  uri : String
deriving DecidableEq

/-- Derived `Deserialize` for `TextDocumentIdentifier`. -/
def TextDocumentIdentifier.deserialize :
    Json → Except DecodeError TextDocumentIdentifier
  | .obj fs => do
    let u ← decodeReqField fs "uri" decodeString
    .ok ⟨u⟩
  | _ => .error (.invalidType "map")

/-! ## Diagnostics -/

/-- `Diagnostic { range, severity: Option, code: String, source: Option,
message: String }`, derives Deserialize and Serialize, no field renamed, no
skip attribute on any field. -/
structure Diagnostic where
  range : Range
  severity : Option DiagnosticSeverity
  code : String
  source : Option String
  message : String
deriving DecidableEq

/-- The contained range fits the Rust representation. -/
def Diagnostic.wf (d : Diagnostic) : Prop := d.range.wf

instance (d : Diagnostic) : Decidable d.wf := by
  unfold Diagnostic.wf; infer_instance

/-- Derived `Serialize` for `Diagnostic`: every field emitted in declaration
order; the two `Option` fields have no skip attribute, so an absent value is
emitted as `null`. -/
def Diagnostic.serialize (d : Diagnostic) : Json :=
  .obj [("range", d.range.serialize),
        ("severity", serializeOption DiagnosticSeverity.serialize d.severity),
        ("code", .str d.code),
        ("source", serializeOption Json.str d.source),
        ("message", .str d.message)]

/-- Derived `Deserialize` for `Diagnostic`. -/
def Diagnostic.deserialize : Json → Except DecodeError Diagnostic
  | .obj fs => do
    let r ← decodeReqField fs "range" Range.deserialize
    let sev ← decodeOptField fs "severity" DiagnosticSeverity.deserialize
    let c ← decodeReqField fs "code" decodeString
    let src ← decodeOptField fs "source" decodeString
    let m ← decodeReqField fs "message" decodeString
    .ok ⟨r, sev, c, src, m⟩
  | _ => .error (.invalidType "map")

/-! ## File events and code action parameters (claim C4) -/

/-- `FileEvent { uri: String, typ: FileChangeType }`, derives Deserialize.
The source declares NO `#[serde(rename)]` on `typ`, so its wire key is the
internal identifier `typ`. -/
structure FileEvent where
  uri : String
  typ : FileChangeType
deriving DecidableEq

/-- Derived `Deserialize` for `FileEvent`: required keys `uri` and `typ`. -/
def FileEvent.deserialize : Json → Except DecodeError FileEvent
  | .obj fs => do
    let u ← decodeReqField fs "uri" decodeString
    let t ← decodeReqField fs "typ" FileChangeType.deserialize
    .ok ⟨u, t⟩
  | _ => .error (.invalidType "map")

/-- `CodeActionContext { diagnostics: Vec<Diagnostic> }`, derives
Deserialize. -/
structure CodeActionContext where
  diagnostics : List Diagnostic
deriving DecidableEq

/-- Derived `Deserialize` for `CodeActionContext`. -/
def CodeActionContext.deserialize : Json → Except DecodeError CodeActionContext
  | .obj fs => do
    let ds ← decodeReqField fs "diagnostics" (decodeList Diagnostic.deserialize)
    .ok ⟨ds⟩
  | _ => .error (.invalidType "map")

/-- `CodeActionParams { text_document, range, context }`, derives
Deserialize.  The source declares NO `#[serde(rename)]` on `text_document`
(unlike every sibling params struct), so its wire key is the internal
identifier `text_document`. -/
structure CodeActionParams where
  text_document : TextDocumentIdentifier
  range : Range
  context : CodeActionContext
deriving DecidableEq

/-- Derived `Deserialize` for `CodeActionParams`: required keys
`text_document`, `range`, `context`. -/
def CodeActionParams.deserialize : Json → Except DecodeError CodeActionParams
  | .obj fs => do
    let td ← decodeReqField fs "text_document" TextDocumentIdentifier.deserialize
    let r ← decodeReqField fs "range" Range.deserialize
    let ctx ← decodeReqField fs "context" CodeActionContext.deserialize
    .ok ⟨td, r, ctx⟩
  | _ => .error (.invalidType "map")

/-! ## MarkedString (tagged-value codec) -/

/-- `MarkedString`: either a bare string or a language-tagged code block,
constructor names from the source. -/
inductive MarkedString where
  | String (s : String)
  | LanguageString (language : String) (value : String)
deriving DecidableEq

/-- Hand-written `Serialize` impl for `MarkedString`: the `String` variant is
a bare wire string; the `LanguageString` variant serializes through the
local `Variant` struct with exactly the two fields `language` and `value`. -/
def MarkedString.serialize : MarkedString → Json
  | .String s => .str s
  | .LanguageString language value =>
    .obj [("language", .str language), ("value", .str value)]

/-- Modelled from the spec: the source declares no `Deserialize` impl for
`MarkedString` (only `Serialize`).  Section 4.4 of the spec: decode inspects
the wire value's shape - a bare string decodes to the plain variant; an
object decodes to the language-tagged variant and requires both keys
`language` and `value` (a missing key fails as a missing-field error, per
section 4.1); any other shape is rejected (`UnrecognizedShape`, section
7). -/
def MarkedString.deserialize : Json → Except DecodeError MarkedString
  | .str s => .ok (.String s)
  | .obj fs => do
    let language ← decodeReqField fs "language" decodeString
    let value ← decodeReqField fs "value" decodeString
    .ok (.LanguageString language value)
  | _ => .error (.invalidValue "UnrecognizedShape: MarkedString")

/-! ## Option records and messaging entities (encode side) -/

/-- `CompletionOptions { resolve_provider: Option<bool>, trigger_characters:
Vec<String> }`, derives Serialize.  `resolve_provider` is renamed to
`resolveProvider` and skipped when `None`; `trigger_characters` is renamed
to `triggerCharacters` and carries NO skip attribute in the source, so it is
always emitted, empty or not. -/
structure CompletionOptions where
  resolve_provider : Option Bool
  trigger_characters : List String
deriving DecidableEq

/-- Derived `Serialize` for `CompletionOptions`. -/
def CompletionOptions.serialize (o : CompletionOptions) : Json :=
  .obj (optField "resolveProvider" Json.bool o.resolve_provider ++
        [("triggerCharacters", .arr (o.trigger_characters.map Json.str))])

/-- `SignatureHelpOptions { trigger_characters: Vec<String> }`, derives
Serialize; the field is renamed to `triggerCharacters` and skipped when the
vector is empty. -/
structure SignatureHelpOptions where
  trigger_characters : List String
deriving DecidableEq

/-- Derived `Serialize` for `SignatureHelpOptions`. -/
def SignatureHelpOptions.serialize (o : SignatureHelpOptions) : Json :=
  .obj (vecFieldSkipEmpty "triggerCharacters" Json.str o.trigger_characters)

/-- `CodeLensOptions { resolve_provider: Option<bool> }`, derives Serialize;
the field is renamed to `resolveProvider` and carries NO skip attribute, so
an absent value is emitted as `null`. -/
structure CodeLensOptions where
  resolve_provider : Option Bool
deriving DecidableEq

/-- Derived `Serialize` for `CodeLensOptions`. -/
def CodeLensOptions.serialize (o : CodeLensOptions) : Json :=
  .obj [("resolveProvider", serializeOption Json.bool o.resolve_provider)]

/-- `DocumentOnTypeFormattingOptions { first_trigger_character: String,
more_trigger_character: Vec<String> }`, derives Serialize;
`more_trigger_character` is skipped when empty. -/
structure DocumentOnTypeFormattingOptions where
  first_trigger_character : String
  more_trigger_character : List String
deriving DecidableEq

/-- Derived `Serialize` for `DocumentOnTypeFormattingOptions`. -/
def DocumentOnTypeFormattingOptions.serialize
    (o : DocumentOnTypeFormattingOptions) : Json :=
  .obj ([("firstTriggerCharacter", .str o.first_trigger_character)] ++
        vecFieldSkipEmpty "moreTriggerCharacter" Json.str
          o.more_trigger_character)

/-- `ServerCapabilities`: fifteen independently optional fields, every one
renamed to its camelCase wire key and skipped when `None`, derives
Serialize. -/
structure ServerCapabilities where
  text_document_sync : Option TextDocumentSyncKind
  hover_provider : Option Bool
  completion_provider : Option CompletionOptions
  signature_help_provider : Option SignatureHelpOptions
  definition_provider : Option Bool
  references_provider : Option Bool
  document_highlight_provider : Option Bool
  document_symbol_provider : Option Bool
  workspace_symbol_provider : Option Bool
  code_action_provider : Option Bool
  code_lens_provider : Option CodeLensOptions
  document_formatting_provider : Option Bool
  document_range_formatting_provider : Option Bool
  document_on_type_formatting_provider : Option DocumentOnTypeFormattingOptions
  rename_provider : Option Bool
deriving DecidableEq

/-- Derived `Serialize` for `ServerCapabilities`: declaration order, every
field behind `skip_serializing_if="Option::is_none"`. -/
def ServerCapabilities.serialize (s : ServerCapabilities) : Json :=
  .obj (optField "textDocumentSync" TextDocumentSyncKind.serialize
          s.text_document_sync ++
        optField "hoverProvider" Json.bool s.hover_provider ++
        optField "completionProvider" CompletionOptions.serialize
          s.completion_provider ++
        optField "signatureHelpProvider" SignatureHelpOptions.serialize
          s.signature_help_provider ++
        optField "definitionProvider" Json.bool s.definition_provider ++
        optField "referencesProvider" Json.bool s.references_provider ++
        optField "documentHighlightProvider" Json.bool
          s.document_highlight_provider ++
        optField "documentSymbolProvider" Json.bool
          s.document_symbol_provider ++
        optField "workspaceSymbolProvider" Json.bool
          s.workspace_symbol_provider ++
        optField "codeActionProvider" Json.bool s.code_action_provider ++
        optField "codeLensProvider" CodeLensOptions.serialize
          s.code_lens_provider ++
        optField "documentFormattingProvider" Json.bool
          s.document_formatting_provider ++
        optField "documentRangeFormattingProvider" Json.bool
          s.document_range_formatting_provider ++
        optField "documentOnTypeFormattingProvider"
          DocumentOnTypeFormattingOptions.serialize
          s.document_on_type_formatting_provider ++
        optField "renameProvider" Json.bool s.rename_provider)

/-- The all-absent `ServerCapabilities` (`Default` derive in the source). -/
def ServerCapabilities.default : ServerCapabilities :=
  ⟨none, none, none, none, none, none, none, none, none, none, none, none,
   none, none, none⟩

/-- `Hover { contents: Vec<MarkedString>, range: Option<Range> }`, derives
Serialize; `range` carries NO skip attribute, so an absent range is emitted
as `null`. -/
structure Hover where
  contents : List MarkedString
  range : Option Range
deriving DecidableEq

/-- Derived `Serialize` for `Hover`. -/
def Hover.serialize (h : Hover) : Json :=
  .obj [("contents", .arr (h.contents.map MarkedString.serialize)),
        ("range", serializeOption Range.serialize h.range)]

/-- `ParameterInformation { label: String, documentation: String }`, derives
Serialize; `documentation` is skipped when the string is empty. -/
structure ParameterInformation where
  label : String
  documentation : String
deriving DecidableEq

/-- Derived `Serialize` for `ParameterInformation`. -/
def ParameterInformation.serialize (p : ParameterInformation) : Json :=
  .obj ([("label", .str p.label)] ++
        strFieldSkipEmpty "documentation" p.documentation)

/-- `SignatureInformation { label: String, documentation: String,
parameters: Vec<ParameterInformation> }`, derives Serialize; `parameters` is
skipped when empty, `documentation` is always emitted (no skip attribute at
this level). -/
structure SignatureInformation where
  label : String
  documentation : String
  parameters : List ParameterInformation
deriving DecidableEq

/-- Derived `Serialize` for `SignatureInformation`. -/
def SignatureInformation.serialize (s : SignatureInformation) : Json :=
  .obj ([("label", .str s.label), ("documentation", .str s.documentation)] ++
        vecFieldSkipEmpty "parameters" ParameterInformation.serialize
          s.parameters)

/-- `MessageActionItem { title: String }`, derives Serialize. -/
structure MessageActionItem where
  title : String
deriving DecidableEq

/-- Derived `Serialize` for `MessageActionItem`. -/
def MessageActionItem.serialize (a : MessageActionItem) : Json :=
  .obj [("title", .str a.title)]

/-- `ShowMessageRequestParams { typ: MessageType, message: String, actions:
Vec<MessageActionItem> }`, derives Serialize; `typ` is renamed to the
protocol key `type`, `actions` is skipped when empty. -/
structure ShowMessageRequestParams where
  typ : MessageType
  message : String
  actions : List MessageActionItem
deriving DecidableEq

/-- Derived `Serialize` for `ShowMessageRequestParams`. -/
def ShowMessageRequestParams.serialize (p : ShowMessageRequestParams) : Json :=
  .obj ([("type", p.typ.serialize), ("message", .str p.message)] ++
        vecFieldSkipEmpty "actions" MessageActionItem.serialize p.actions)

/-- `Command { title: String, command: String, arguments: Vec<Value> }`,
derives Serialize; `arguments` is skipped when empty.  The opaque `Value`
arguments are wire values passed through unchanged. -/
structure Command where
  title : String
  command : String
  arguments : List Json

/-- Derived `Serialize` for `Command`: `title` and `command` always,
`arguments` omitted when empty, element order preserved. -/
def Command.serialize (c : Command) : Json :=
  .obj ([("title", .str c.title), ("command", .str c.command)] ++
        (if c.arguments.isEmpty then []
         else [("arguments", .arr c.arguments)]))

/-- `ClientCapabilities { _dummy: Option<()> }`, derives Deserialize.  The
single private field exists only to satisfy the derive; it carries no
protocol content. -/
structure ClientCapabilities where
  _dummy : Option Unit
deriving DecidableEq

/-- Derived `Deserialize` for `ClientCapabilities`: the Option field
defaults to `none` when the key is missing or `null`; a non-null `_dummy`
value must deserialize as the unit type. -/
def ClientCapabilities.deserialize : Json → Except DecodeError ClientCapabilities
  | .obj fs => do
    let d ← decodeOptField fs "_dummy" decodeUnit
    .ok ⟨d⟩
  | _ => .error (.invalidType "map")

/-! ## Helper lemmas -/

theorem decodeU8_num_ok (n : Int) (h1 : 0 ≤ n) (h2 : n ≤ 255) :
    decodeU8 (.num n) = .ok n := by
  simp [decodeU8, h1, h2]

theorem decodeU8_num_outside (n : Int) (h : ¬(0 ≤ n ∧ n ≤ 255)) :
    decodeU8 (.num n) = .error (.invalidType "u8") := by
  simp only [decodeU8, if_neg h]

/-- Appending an entry under a different key does not change a lookup. -/
theorem lookupField_append_ne (fs : List (String × Json)) (k key : String)
    (v : Json) (h : ¬k = key) :
    lookupField (fs ++ [(k, v)]) key = lookupField fs key := by
  induction fs with
  | nil => simp [lookupField, h]
  | cons p rest ih =>
    obtain ⟨k2, v2⟩ := p
    simp only [List.cons_append, lookupField]
    split
    · rfl
    · exact ih

/-- Bind on a success value reduces. -/
theorem except_bind_ok (x : α) (f : α → Except DecodeError β) :
    (do let a ← Except.ok x; f a) = f x := rfl

/-- Bind on an error propagates the error. -/
theorem except_bind_error (e : DecodeError) (f : α → Except DecodeError β) :
    (do let a ← (Except.error e : Except DecodeError α); f a) = .error e := rfl

/-- A required-field decode ignores an appended entry with a different key. -/
theorem reqField_append_ne (fs : List (String × Json)) (k key : String)
    (v : Json) (dec : Json → Except DecodeError α) (h : ¬k = key) :
    decodeReqField (fs ++ [(k, v)]) key dec = decodeReqField fs key dec := by
  rw [decodeReqField, decodeReqField, lookupField_append_ne fs k key v h]

/-- Round-trip of the severity codec at the wire number level. -/
theorem severity_roundtrip_num (s : DiagnosticSeverity) :
    DiagnosticSeverity.deserialize (.num s.toWire) = .ok s := by
  cases s <;> rfl

/-- A u64 wire number below the bound decodes to itself. -/
theorem decodeU64_num_ok (n : Nat) (h : n < 2 ^ 64) :
    decodeU64 (.num n) = .ok n := by
  have h1 : (0 : Int) ≤ (n : Int) := Int.natCast_nonneg n
  have h2 : (n : Int) < 2 ^ 64 := by exact_mod_cast h
  rw [decodeU64, if_pos ⟨h1, h2⟩, Int.toNat_natCast]

/-- A required field at the head of the object evaluates directly. -/
theorem reqField_cons_hit (k : String) (v : Json) (fs : List (String × Json))
    (dec : Json → Except DecodeError α) :
    decodeReqField ((k, v) :: fs) k dec = dec v := by
  simp [decodeReqField, lookupField]

/-- A required field lookup skips a head entry with a different key. -/
theorem reqField_cons_miss (k key : String) (v : Json)
    (fs : List (String × Json)) (dec : Json → Except DecodeError α)
    (h : ¬k = key) :
    decodeReqField ((k, v) :: fs) key dec = decodeReqField fs key dec := by
  simp [decodeReqField, lookupField, h]

/-- An Option field lookup skips a head entry with a different key. -/
theorem optField_cons_miss (k key : String) (v : Json)
    (fs : List (String × Json)) (dec : Json → Except DecodeError α)
    (h : ¬k = key) :
    decodeOptField ((k, v) :: fs) key dec = decodeOptField fs key dec := by
  simp [decodeOptField, lookupField, h]

/-- An Option field present as `null` decodes to `none`. -/
theorem optField_cons_hit_null (k : String) (fs : List (String × Json))
    (dec : Json → Except DecodeError α) :
    decodeOptField ((k, Json.null) :: fs) k dec = .ok none := by
  simp [decodeOptField, lookupField]

/-- An Option field present as a number decodes through the inner decoder. -/
theorem optField_cons_hit_num (k : String) (n : Int)
    (fs : List (String × Json)) (dec : Json → Except DecodeError α) (x : α)
    (h : dec (.num n) = .ok x) :
    decodeOptField ((k, Json.num n) :: fs) k dec = .ok (some x) := by
  simp [decodeOptField, lookupField, h]

/-- An Option severity field present as the variant's wire number decodes to
that variant. -/
theorem optField_severity_hit (k : String) (fs : List (String × Json))
    (s : DiagnosticSeverity) :
    decodeOptField ((k, .num s.toWire) :: fs) k DiagnosticSeverity.deserialize =
      .ok (some s) :=
  optField_cons_hit_num k s.toWire fs DiagnosticSeverity.deserialize s
    (severity_roundtrip_num s)

/-- An Option string field present as a wire string decodes to that string. -/
theorem optField_str_hit (k u : String) (fs : List (String × Json)) :
    decodeOptField ((k, .str u) :: fs) k decodeString = .ok (some u) := by
  simp [decodeOptField, lookupField, decodeString]

/-- Round-trip for `Position` under the u64 bounds. -/
theorem position_roundtrip (p : Position) (h : p.wf) :
    Position.deserialize (Position.serialize p) = .ok p := by
  obtain ⟨a, b⟩ := p
  obtain ⟨ha, hb⟩ := h
  show Position.deserialize
    (.obj [("line", .num (a : Int)), ("character", .num (b : Int))]) = .ok ⟨a, b⟩
  rw [Position.deserialize, reqField_cons_hit,
      reqField_cons_miss _ _ _ _ _ (by decide), reqField_cons_hit,
      decodeU64_num_ok a ha, decodeU64_num_ok b hb]
  rfl

/-- Round-trip for `Range` under the u64 bounds. -/
theorem range_roundtrip (r : Range) (h : r.wf) :
    Range.deserialize (Range.serialize r) = .ok r := by
  obtain ⟨s, e⟩ := r
  show Range.deserialize (.obj [("start", s.serialize), ("end", e.serialize)]) =
    .ok ⟨s, e⟩
  rw [Range.deserialize, reqField_cons_hit,
      reqField_cons_miss _ _ _ _ _ (by decide), reqField_cons_hit,
      position_roundtrip s h.1, position_roundtrip e h.2]
  rfl

/-- Round-trip for `Diagnostic` under the u64 bounds. -/
theorem diagnostic_roundtrip (d : Diagnostic) (h : d.wf) :
    Diagnostic.deserialize (Diagnostic.serialize d) = .ok d := by
  obtain ⟨r, sev, c, src, m⟩ := d
  have hr := range_roundtrip r h
  cases sev <;> cases src <;>
    simp only [Diagnostic.serialize, Diagnostic.deserialize, serializeOption,
      DiagnosticSeverity.serialize, reqField_cons_hit, reqField_cons_miss,
      optField_cons_miss, optField_cons_hit_null, optField_severity_hit,
      optField_str_hit, hr, decodeString, ne_eq, String.reduceEq,
      not_false_eq_true] <;> rfl

/-! ## Claim theorems -/

/-- C1: for both enumerations with a decode path, decoding a wire number in
the table yields the matching variant and decoding any integer outside the
table fails - never a default variant; an in-range integer outside the
table fails with the `invalid_value` error naming the enumeration.  In
particular `DiagnosticSeverity` decodes 1 to `Error` and fails on 5, and
`FileChangeType` decode succeeds exactly on 1 (Created), 2 (Changed),
3 (Deleted). -/
theorem enum_decode_strict_whitelist :
    (DiagnosticSeverity.deserialize (.num 1) = .ok .Error) ∧
    (DiagnosticSeverity.deserialize (.num 2) = .ok .Warning) ∧
    (DiagnosticSeverity.deserialize (.num 3) = .ok .Information) ∧
    (DiagnosticSeverity.deserialize (.num 4) = .ok .Hint) ∧
    (DiagnosticSeverity.deserialize (.num 5) = .error (.invalidValue
      "Expected a value of 1, 2, 3 or 4 to deserialze to DiagnosticSeverity")) ∧
    (∀ n : Int, (∃ s, DiagnosticSeverity.deserialize (.num n) = .ok s) ↔
      n = 1 ∨ n = 2 ∨ n = 3 ∨ n = 4) ∧
    (∀ n : Int, 0 ≤ n → n ≤ 255 → ¬(n = 1 ∨ n = 2 ∨ n = 3 ∨ n = 4) →
      DiagnosticSeverity.deserialize (.num n) = .error (.invalidValue
        "Expected a value of 1, 2, 3 or 4 to deserialze to DiagnosticSeverity")) ∧
    (FileChangeType.deserialize (.num 1) = .ok .Created) ∧
    (FileChangeType.deserialize (.num 2) = .ok .Changed) ∧
    (FileChangeType.deserialize (.num 3) = .ok .Deleted) ∧
    (∀ n : Int, (∃ t, FileChangeType.deserialize (.num n) = .ok t) ↔
      n = 1 ∨ n = 2 ∨ n = 3) := by
  refine ⟨rfl, rfl, rfl, rfl, rfl, ?_, ?_, rfl, rfl, rfl, ?_⟩
  · intro n
    by_cases h : 0 ≤ n ∧ n ≤ 255
    · simp only [DiagnosticSeverity.deserialize, decodeU8_num_ok n h.1 h.2]
      split_ifs with h1 h2 h3 h4 <;> simp_all
    · simp only [DiagnosticSeverity.deserialize, decodeU8_num_outside n h]
      simp only [reduceCtorEq, exists_false, false_iff]
      omega
  · intro n h1 h2 h3
    simp only [DiagnosticSeverity.deserialize, decodeU8_num_ok n h1 h2]
    push_neg at h3
    split_ifs <;> simp_all
  · intro n
    by_cases h : 0 ≤ n ∧ n ≤ 255
    · simp only [FileChangeType.deserialize, decodeU8_num_ok n h.1 h.2]
      split_ifs with h1 h2 h3 <;> simp_all
    · simp only [FileChangeType.deserialize, decodeU8_num_outside n h]
      simp only [reduceCtorEq, exists_false, false_iff]
      omega

/-- Witness for C1's in-range clause: decoding severity 7 (in 0..=255 but
outside the table) fails with the error naming `DiagnosticSeverity`. -/
theorem enum_decode_strict_whitelist_witness :
    DiagnosticSeverity.deserialize (.num 7) = .error (.invalidValue
      "Expected a value of 1, 2, 3 or 4 to deserialze to DiagnosticSeverity") :=
  enum_decode_strict_whitelist.2.2.2.2.2.2.1 7 (by decide) (by decide) (by decide)

/-- C2 counterexample: encoding a `CompletionOptions` with `resolve_provider`
absent and `trigger_characters` empty still emits the `triggerCharacters`
key (with an empty array), because the source declares no skip attribute on
that field; and `Command.arguments`, which is not in the claimed
omit-if-empty list, does omit its key when empty. -/
theorem completionOptions_empty_triggers_key_emitted :
    (CompletionOptions.serialize ⟨none, []⟩ =
      .obj [("triggerCharacters", .arr [])]) ∧
    (Command.serialize ⟨"t", "c", []⟩ =
      .obj [("title", .str "t"), ("command", .str "c")]) := ⟨rfl, rfl⟩

/-- C2 amended: omit-if-empty applies exactly to
`SignatureHelpOptions.triggerCharacters`,
`DocumentOnTypeFormattingOptions.moreTriggerCharacter`,
`ShowMessageRequestParams.actions`, `SignatureInformation.parameters`,
`ParameterInformation.documentation` (empty string) and `Command.arguments`;
`CompletionOptions.triggerCharacters` is NOT in the set - it is always
emitted, so the empty-trigger encoding yields an object whose only key is
`triggerCharacters` holding an empty array, while a singleton list yields
that key holding the list. -/
theorem omit_if_empty_exact_field_set :
    (SignatureHelpOptions.serialize ⟨[]⟩ = .obj []) ∧
    (∀ c cs, SignatureHelpOptions.serialize ⟨c :: cs⟩ =
      .obj [("triggerCharacters", .arr ((c :: cs).map Json.str))]) ∧
    (∀ f, DocumentOnTypeFormattingOptions.serialize ⟨f, []⟩ =
      .obj [("firstTriggerCharacter", .str f)]) ∧
    (∀ f c cs, DocumentOnTypeFormattingOptions.serialize ⟨f, c :: cs⟩ =
      .obj [("firstTriggerCharacter", .str f),
            ("moreTriggerCharacter", .arr ((c :: cs).map Json.str))]) ∧
    (∀ (t : MessageType) (m : String), ShowMessageRequestParams.serialize ⟨t, m, []⟩ =
      .obj [("type", t.serialize), ("message", .str m)]) ∧
    (∀ (t : MessageType) (m : String) a as,
      ShowMessageRequestParams.serialize ⟨t, m, a :: as⟩ =
        .obj [("type", t.serialize), ("message", .str m),
              ("actions", .arr ((a :: as).map MessageActionItem.serialize))]) ∧
    (∀ l d, SignatureInformation.serialize ⟨l, d, []⟩ =
      .obj [("label", .str l), ("documentation", .str d)]) ∧
    (∀ l, ParameterInformation.serialize ⟨l, ""⟩ = .obj [("label", .str l)]) ∧
    (∀ t c, Command.serialize ⟨t, c, []⟩ =
      .obj [("title", .str t), ("command", .str c)]) ∧
    (CompletionOptions.serialize ⟨none, []⟩ =
      .obj [("triggerCharacters", .arr [])]) ∧
    (CompletionOptions.serialize ⟨none, ["."]⟩ =
      .obj [("triggerCharacters", .arr [.str "."])]) :=
  ⟨rfl, fun c cs => rfl, fun f => rfl, fun f c cs => rfl, fun t m => rfl,
   fun t m a as => rfl, fun l d => rfl, fun l => rfl, fun t c => rfl, rfl, rfl⟩

/-- C3: the entities deriving both Deserialize and Serialize round-trip:
decoding the encoding of any representable Position, Range or Diagnostic
yields the value back under structural equality.  (SymbolInformation, also
named by the claim, derives neither impl in the source - see the results
record - so no codec exists for it.) -/
theorem roundtrip_position_range_diagnostic :
    (∀ a b : Fin (2 ^ 64),
      Position.deserialize (Position.serialize ⟨a.1, b.1⟩) = .ok ⟨a.1, b.1⟩) ∧
    (∀ a b c d : Fin (2 ^ 64),
      Range.deserialize (Range.serialize ⟨⟨a.1, b.1⟩, ⟨c.1, d.1⟩⟩) =
        .ok ⟨⟨a.1, b.1⟩, ⟨c.1, d.1⟩⟩) ∧
    (∀ (a b c d : Fin (2 ^ 64)) (sev : Option DiagnosticSeverity)
       (code : String) (src : Option String) (msg : String),
      Diagnostic.deserialize
          (Diagnostic.serialize ⟨⟨⟨a.1, b.1⟩, ⟨c.1, d.1⟩⟩, sev, code, src, msg⟩) =
        .ok ⟨⟨⟨a.1, b.1⟩, ⟨c.1, d.1⟩⟩, sev, code, src, msg⟩) := by
  refine ⟨?_, ?_, ?_⟩
  · intro a b
    exact position_roundtrip ⟨a.1, b.1⟩ ⟨a.2, b.2⟩
  · intro a b c d
    exact range_roundtrip _ ⟨⟨a.2, b.2⟩, ⟨c.2, d.2⟩⟩
  · intro a b c d sev code src msg
    exact diagnostic_roundtrip _ ⟨⟨a.2, b.2⟩, ⟨c.2, d.2⟩⟩

/-- C4: contrary to the camelCase rule, the source declares no rename on
`CodeActionParams.text_document` or `FileEvent.typ`: a protocol-keyed
object (wire key `textDocument`, resp. `type`) is rejected with a
missing-field error, while the internal identifiers `text_document` and
`typ` are the accepted wire keys. -/
theorem codeActionParams_fileEvent_wire_keys :
    (CodeActionParams.deserialize (.obj
        [("textDocument", .obj [("uri", .str "file:///a.glu")]),
         ("range", .obj [("start", .obj [("line", .num 0), ("character", .num 0)]),
                         ("end", .obj [("line", .num 0), ("character", .num 1)])]),
         ("context", .obj [("diagnostics", .arr [])])]) =
      .error (.missingField "text_document")) ∧
    (CodeActionParams.deserialize (.obj
        [("text_document", .obj [("uri", .str "file:///a.glu")]),
         ("range", .obj [("start", .obj [("line", .num 0), ("character", .num 0)]),
                         ("end", .obj [("line", .num 0), ("character", .num 1)])]),
         ("context", .obj [("diagnostics", .arr [])])]) =
      .ok ⟨⟨"file:///a.glu"⟩, ⟨⟨0, 0⟩, ⟨0, 1⟩⟩, ⟨[]⟩⟩) ∧
    (FileEvent.deserialize (.obj [("uri", .str "u"), ("type", .num 1)]) =
      .error (.missingField "typ")) ∧
    (FileEvent.deserialize (.obj [("uri", .str "u"), ("typ", .num 1)]) =
      .ok ⟨"u", .Created⟩) := ⟨rfl, rfl, rfl, rfl⟩

/-- C5: the MarkedString codec is shape-discriminated in both directions: a
plain variant encodes to a bare wire string and the language variant to an
object with exactly the keys language and value; decode inspects the shape,
a bare string yields the plain variant, an object requires both keys and a
missing key fails with a missing-field error. -/
theorem markedString_shape_discriminated :
    (∀ s, MarkedString.serialize (.String s) = .str s) ∧
    (∀ l v, MarkedString.serialize (.LanguageString l v) =
      .obj [("language", .str l), ("value", .str v)]) ∧
    (∀ s, MarkedString.deserialize (.str s) = .ok (.String s)) ∧
    (∀ l v, MarkedString.deserialize
        (.obj [("language", .str l), ("value", .str v)]) =
      .ok (.LanguageString l v)) ∧
    (MarkedString.deserialize (.obj [("value", .str "x")]) =
      .error (.missingField "language")) ∧
    (∀ l, MarkedString.deserialize (.obj [("language", .str l)]) =
      .error (.missingField "value")) := by
  refine ⟨fun s => rfl, fun l v => rfl, fun s => rfl, fun l v => ?_, rfl,
    fun l => ?_⟩
  · rw [MarkedString.deserialize, reqField_cons_hit,
        reqField_cons_miss _ _ _ _ _ (by decide), reqField_cons_hit]
    rfl
  · rw [MarkedString.deserialize, reqField_cons_hit,
        reqField_cons_miss _ _ _ _ _ (by decide)]
    rfl

/-- C6 counterexample: the absent optional is NOT omitted for the fields
the claim names: `CodeLensOptions.resolveProvider`, `Hover.range`,
`Diagnostic.severity` and `Diagnostic.source` carry no skip attribute in the
source, so an absent value is emitted as the key with `null`. -/
theorem optional_absent_emits_null :
    (CodeLensOptions.serialize ⟨none⟩ = .obj [("resolveProvider", .null)]) ∧
    (Hover.serialize ⟨[], none⟩ =
      .obj [("contents", .arr []), ("range", .null)]) ∧
    (Diagnostic.serialize ⟨⟨⟨0, 0⟩, ⟨0, 0⟩⟩, none, "", none, ""⟩ =
      .obj [("range", .obj [("start", .obj [("line", .num 0), ("character", .num 0)]),
                            ("end", .obj [("line", .num 0), ("character", .num 0)])]),
            ("severity", .null), ("code", .str ""), ("source", .null),
            ("message", .str "")]) := ⟨rfl, rfl, rfl⟩

/-- C6 amended: omit-if-absent holds exactly for the optional fields the
source marks with `skip_serializing_if="Option::is_none"` (all fifteen
ServerCapabilities fields, CompletionOptions.resolveProvider, the optional
CompletionItem fields); the optional fields without that attribute -
CodeLensOptions.resolveProvider, Hover.range, Diagnostic.severity and
Diagnostic.source - emit their wire key with a `null` value when absent. -/
theorem omit_if_absent_only_with_skip_attribute :
    (ServerCapabilities.serialize ServerCapabilities.default = .obj []) ∧
    (∀ b, ServerCapabilities.serialize
        { ServerCapabilities.default with hover_provider := some b } =
      .obj [("hoverProvider", .bool b)]) ∧
    (∀ tcs, CompletionOptions.serialize ⟨none, tcs⟩ =
      .obj [("triggerCharacters", .arr (tcs.map Json.str))]) ∧
    (∀ b tcs, CompletionOptions.serialize ⟨some b, tcs⟩ =
      .obj [("resolveProvider", .bool b),
            ("triggerCharacters", .arr (tcs.map Json.str))]) ∧
    (∀ b, CodeLensOptions.serialize ⟨some b⟩ =
      .obj [("resolveProvider", .bool b)]) ∧
    (CodeLensOptions.serialize ⟨none⟩ = .obj [("resolveProvider", .null)]) ∧
    (∀ ms, Hover.serialize ⟨ms, none⟩ =
      .obj [("contents", .arr (ms.map MarkedString.serialize)),
            ("range", .null)]) ∧
    (∀ r c m, Diagnostic.serialize ⟨r, none, c, none, m⟩ =
      .obj [("range", r.serialize), ("severity", .null), ("code", .str c),
            ("source", .null), ("message", .str m)]) :=
  ⟨rfl, fun b => rfl, fun tcs => rfl, fun b tcs => rfl, fun b => rfl, rfl,
   fun ms => rfl, fun r c m => rfl⟩

/-- C7: every enumeration variant encodes to exactly the integer the source
assigns as its discriminant, emitted as a bare wire number (the
FileChangeType encoder is modelled from the spec, its discriminants from the
source). -/
theorem enum_encode_table :
    (TextDocumentSyncKind.serialize .None = .num 0) ∧
    (TextDocumentSyncKind.serialize .Full = .num 1) ∧
    (TextDocumentSyncKind.serialize .Incremental = .num 2) ∧
    (FileChangeType.serialize .Created = .num 1) ∧
    (FileChangeType.serialize .Changed = .num 2) ∧
    (FileChangeType.serialize .Deleted = .num 3) ∧
    (CompletionItemKind.serialize .Text = .num 1) ∧
    (CompletionItemKind.serialize .Method = .num 2) ∧
    (CompletionItemKind.serialize .Function = .num 3) ∧
    (CompletionItemKind.serialize .Constructor = .num 4) ∧
    (CompletionItemKind.serialize .Field = .num 5) ∧
    (CompletionItemKind.serialize .Variable = .num 6) ∧
    (CompletionItemKind.serialize .Class = .num 7) ∧
    (CompletionItemKind.serialize .Interface = .num 8) ∧
    (CompletionItemKind.serialize .Module = .num 9) ∧
    (CompletionItemKind.serialize .Property = .num 10) ∧
    (CompletionItemKind.serialize .Unit = .num 11) ∧
    (CompletionItemKind.serialize .Value = .num 12) ∧
    (CompletionItemKind.serialize .Enum = .num 13) ∧
    (CompletionItemKind.serialize .Keyword = .num 14) ∧
    (CompletionItemKind.serialize .Snippet = .num 15) ∧
    (CompletionItemKind.serialize .Color = .num 16) ∧
    (CompletionItemKind.serialize .File = .num 17) ∧
    (CompletionItemKind.serialize .Reference = .num 18) ∧
    (SymbolKind.serialize .File = .num 1) ∧
    (SymbolKind.serialize .Module = .num 2) ∧
    (SymbolKind.serialize .Namespace = .num 3) ∧
    (SymbolKind.serialize .Package = .num 4) ∧
    (SymbolKind.serialize .Class = .num 5) ∧
    (SymbolKind.serialize .Method = .num 6) ∧
    (SymbolKind.serialize .Property = .num 7) ∧
    (SymbolKind.serialize .Field = .num 8) ∧
    (SymbolKind.serialize .Constructor = .num 9) ∧
    (SymbolKind.serialize .Enum = .num 10) ∧
    (SymbolKind.serialize .Interface = .num 11) ∧
    (SymbolKind.serialize .Function = .num 12) ∧
    (SymbolKind.serialize .Variable = .num 13) ∧
    (SymbolKind.serialize .Constant = .num 14) ∧
    (SymbolKind.serialize .String = .num 15) ∧
    (SymbolKind.serialize .Number = .num 16) ∧
    (SymbolKind.serialize .Boolean = .num 17) ∧
    (SymbolKind.serialize .Array = .num 18) ∧
    (DocumentHighlightKind.serialize .Text = .num 1) ∧
    (DocumentHighlightKind.serialize .Read = .num 2) ∧
    (DocumentHighlightKind.serialize .Write = .num 3) ∧
    (DiagnosticSeverity.serialize .Error = .num 1) ∧
    (DiagnosticSeverity.serialize .Warning = .num 2) ∧
    (DiagnosticSeverity.serialize .Information = .num 3) ∧
    (DiagnosticSeverity.serialize .Hint = .num 4) ∧
    (MessageType.serialize .Error = .num 1) ∧
    (MessageType.serialize .Warning = .num 2) ∧
    (MessageType.serialize .Info = .num 3) ∧
    (MessageType.serialize .Log = .num 4) := by
  exact ⟨rfl, rfl, rfl, rfl, rfl, rfl, rfl, rfl, rfl, rfl, rfl, rfl, rfl, rfl, rfl, rfl, rfl, rfl, rfl, rfl, rfl, rfl, rfl, rfl, rfl, rfl, rfl, rfl, rfl, rfl, rfl, rfl, rfl, rfl, rfl, rfl, rfl, rfl, rfl, rfl, rfl, rfl, rfl, rfl, rfl, rfl, rfl, rfl, rfl, rfl, rfl, rfl, rfl⟩

/-- C8: decoding tolerates unknown extra keys: appending an entry under any
key other than line and character leaves the decode of a Position object
unchanged, and the concrete object with an extra key decodes to the same
Position as without it. -/
theorem position_unknown_field_tolerance :
    (∀ (fs : List (String × Json)) (k : String) (v : Json),
      ¬k = "line" → ¬k = "character" →
      Position.deserialize (.obj (fs ++ [(k, v)])) =
        Position.deserialize (.obj fs)) ∧
    (Position.deserialize (.obj
        [("line", .num 1), ("character", .num 2), ("extra", .num 1)]) =
      .ok ⟨1, 2⟩) ∧
    (Position.deserialize (.obj
        [("line", .num 1), ("character", .num 2), ("extra", .num 1)]) =
      Position.deserialize (.obj [("line", .num 1), ("character", .num 2)])) := by
  refine ⟨?_, rfl, rfl⟩
  intro fs k v h1 h2
  rw [Position.deserialize, Position.deserialize,
      reqField_append_ne fs k "line" v decodeU64 h1,
      reqField_append_ne fs k "character" v decodeU64 h2]

/-- Witness for C8: the tolerance clause applied at the concrete extra key. -/
theorem position_unknown_field_tolerance_witness :
    Position.deserialize (.obj ([("line", .num 1), ("character", .num 2)] ++
        [("extra", .num 1)])) =
      Position.deserialize (.obj [("line", .num 1), ("character", .num 2)]) :=
  position_unknown_field_tolerance.1 [("line", .num 1), ("character", .num 2)]
    "extra" (.num 1) (by decide) (by decide)

/-- C9: encoding a Command with an empty arguments sequence omits the
arguments key; a non-empty sequence is emitted in order under arguments;
title and command are always emitted. -/
theorem command_arguments_omit_if_empty :
    (∀ t c, Command.serialize ⟨t, c, []⟩ =
      .obj [("title", .str t), ("command", .str c)]) ∧
    (∀ t c a args, Command.serialize ⟨t, c, a :: args⟩ =
      .obj [("title", .str t), ("command", .str c),
            ("arguments", .arr (a :: args))]) :=
  ⟨fun t c => rfl, fun t c a args => rfl⟩

/-- A successful ClientCapabilities decode always produces the
information-free value. -/
theorem clientCapabilities_ok_unique (j : Json) (c : ClientCapabilities)
    (h : ClientCapabilities.deserialize j = .ok c) : c = ⟨none⟩ := by
  cases j with
  | obj fs =>
    rw [ClientCapabilities.deserialize, decodeOptField] at h
    cases hv : lookupField fs "_dummy" with
    | none =>
      rw [hv] at h
      simp only [except_bind_ok, Except.ok.injEq] at h
      exact h.symm
    | some v =>
      rw [hv] at h
      cases v <;>
        simp only [decodeUnit, except_bind_ok, except_bind_error,
          Except.ok.injEq, reduceCtorEq] at h <;>
        exact h.symm
  | null => simp [ClientCapabilities.deserialize] at h
  | bool b => simp [ClientCapabilities.deserialize] at h
  | num n => simp [ClientCapabilities.deserialize] at h
  | str s => simp [ClientCapabilities.deserialize] at h
  | arr xs => simp [ClientCapabilities.deserialize] at h

/-- C10 counterexample: a wire object whose `_dummy` key holds a non-null
value fails to decode, so ClientCapabilities decoding does not succeed for
every wire object. -/
theorem clientCapabilities_nonnull_dummy_fails :
    ClientCapabilities.deserialize (.obj [("_dummy", .num 5)]) =
      .error (.invalidType "unit") := rfl

/-- C10 amended: decoding ClientCapabilities succeeds for every wire object
whose `_dummy` key is absent or null (in particular the empty object and
objects of unknown keys), always yielding the single information-free
value; any two successful decodes are equal. -/
theorem clientCapabilities_decode_carries_no_information :
    (ClientCapabilities.deserialize (.obj []) = .ok ⟨none⟩) ∧
    (∀ fs, lookupField fs "_dummy" = none →
      ClientCapabilities.deserialize (.obj fs) = .ok ⟨none⟩) ∧
    (∀ fs, lookupField fs "_dummy" = some .null →
      ClientCapabilities.deserialize (.obj fs) = .ok ⟨none⟩) ∧
    (∀ (j j2 : Json) (c c2 : ClientCapabilities),
      ClientCapabilities.deserialize j = .ok c →
      ClientCapabilities.deserialize j2 = .ok c2 → c = c2) := by
  refine ⟨rfl, ?_, ?_, ?_⟩
  · intro fs h
    rw [ClientCapabilities.deserialize, decodeOptField, h]
    rfl
  · intro fs h
    rw [ClientCapabilities.deserialize, decodeOptField, h]
    rfl
  · intro j j2 c c2 h h2
    rw [clientCapabilities_ok_unique j c h, clientCapabilities_ok_unique j2 c2 h2]

/-- Witness for C10: the amended theorem applied at a concrete unknown-key
object and at two concrete decodes. -/
theorem clientCapabilities_decode_witness :
    ClientCapabilities.deserialize (.obj [("x", .num 1)]) = .ok ⟨none⟩ :=
  clientCapabilities_decode_carries_no_information.2.1 [("x", .num 1)] rfl

/-- Witness for C2's amended theorem: a singleton trigger list is emitted. -/
theorem omit_if_empty_exact_field_set_witness :
    SignatureHelpOptions.serialize ⟨["."]⟩ =
      .obj [("triggerCharacters", .arr [.str "."])] :=
  omit_if_empty_exact_field_set.2.1 "." []

/-- Witness for C3 at a concrete diagnostic. -/
theorem roundtrip_diagnostic_witness :
    Diagnostic.deserialize (Diagnostic.serialize
        ⟨⟨⟨1, 2⟩, ⟨3, 4⟩⟩, some .Error, "E001", some "gluon", "msg"⟩) =
      .ok ⟨⟨⟨1, 2⟩, ⟨3, 4⟩⟩, some .Error, "E001", some "gluon", "msg"⟩ :=
  roundtrip_position_range_diagnostic.2.2 ⟨1, by decide⟩ ⟨2, by decide⟩
    ⟨3, by decide⟩ ⟨4, by decide⟩ (some .Error) "E001" (some "gluon") "msg"

/-- Witness for C5 at concrete strings. -/
theorem markedString_witness :
    MarkedString.deserialize (.obj [("language", .str "rust"),
        ("value", .str "fn main()")]) =
      .ok (.LanguageString "rust" "fn main()") :=
  markedString_shape_discriminated.2.2.2.1 "rust" "fn main()"

/-- Witness for C6's amended theorem at a concrete hover. -/
theorem omit_if_absent_witness :
    Hover.serialize ⟨[], none⟩ =
      .obj [("contents", .arr []), ("range", .null)] :=
  omit_if_absent_only_with_skip_attribute.2.2.2.2.2.2.1 []

/-- Witness for C9 at a concrete command. -/
theorem command_witness :
    Command.serialize ⟨"Run", "gluon.run", [.str "a"]⟩ =
      .obj [("title", .str "Run"), ("command", .str "gluon.run"),
            ("arguments", .arr [.str "a"])] :=
  command_arguments_omit_if_empty.2 "Run" "gluon.run" (.str "a") []

end LS
